import Mathlib

/-!
# Verification of the stock-analysis scoring engine

A shallow embedding in Lean 4 of the scoring engine of `app.py`: the
indicator library (RSI via rolling means, EMA/MACD, simple moving
averages), the per-metric pass/fail evaluation, the contribution ledger,
and the score aggregation into two percentages with three-tier labels.

Prices and fundamental values are modelled as exact rationals; the float
arithmetic of the source introduces no rounding that affects any of the
integer/branch results considered here (all reachable percentage inputs
`100*s/70` and `100*s/30` are at distance at least `1/7` from the nearest
integer unless exact, and the exact cases are dyadic-exact in floats).

Pandas conventions captured by the model:
* `Series.diff()` leaves an undefined (NaN) first entry, modelled as `none`;
* `Series.where(cond, 0)` maps an undefined entry to `0` (NaN comparisons
  are false);
* `rolling(window=w).mean()` is undefined at indices `i` with `i + 1 < w`
  and otherwise averages the `w` trailing entries;
* division of a positive rolling mean by a zero rolling mean yields `+inf`,
  making `100 - 100/(1+rs)` collapse to `100`; `0/0` yields NaN
  (modelled as `none`);
* `ewm(span=s, adjust=False).mean()` is the standard recursive EMA seeded
  by the first sample, defined at every index;
* `dropna()` is `filterMap id`; `.iloc[-1]` on a nonempty series is
  `getLast?`; comparisons against NaN are false.
-/

/-- Fundamentals snapshot: the five optional `info` fields read by the
engine.  `none` models a key absent from the provider's dictionary. -/
structure Info where
  trailingPE : Option ℚ
  trailingEps : Option ℚ
  returnOnEquity : Option ℚ
  revenueGrowth : Option ℚ
  debtToEquity : Option ℚ
deriving DecidableEq, Repr

/-- A displayed ledger value: a number, the string `"N/A"`, or one of the
fixed strings used by the MA-cross and MACD rows.  (Numeric display
formatting such as `:.2f` or `round(·, 2)` is presentation only and not
modelled; `num` carries the exact value.) -/
inductive LedgerValue where
  | num (q : ℚ)
  | na
  | yes
  | no
  | bullish
  | bearish
deriving DecidableEq, Repr

/-- One row of the contributions table:
`(Metric, Value, Threshold, Contribution, Window)`. -/
structure MetricResult where
  metric : String
  value : LedgerValue
  threshold : String
  contribution : ℕ
  window : String
deriving DecidableEq, Repr

/-- The `metrics_weights` dictionary of the source. -/
def metrics_weights : String → ℕ
  | "P/E Ratio" => 15
  | "EPS" => 10
  | "ROE" => 10
  | "Revenue Growth" => 10
  | "Debt-to-Equity" => 10
  | "MA Cross" => 15
  | "RSI" => 15
  | "MACD" => 15
  | _ => 0

/-- `max_long`: sum of the six long-term weights, as the source computes it. -/
def max_long : ℕ :=
  metrics_weights "P/E Ratio" + metrics_weights "EPS" + metrics_weights "ROE"
    + metrics_weights "Revenue Growth" + metrics_weights "Debt-to-Equity"
    + metrics_weights "MA Cross"

/-- `max_short`: RSI weight plus MACD weight. -/
def max_short : ℕ := metrics_weights "RSI" + metrics_weights "MACD"

/-- Python `int()` on a rational: truncation toward zero. -/
def pyInt (q : ℚ) : ℤ := if 0 ≤ q then ⌊q⌋ else ⌈q⌉

/-- `Series.diff()`: per-step close differences, undefined first entry. -/
def diffs (xs : List ℚ) : List (Option ℚ) :=
  match xs with
  | [] => []
  | _ :: t => none :: List.zipWith (fun b a => some (b - a)) t xs

/-- `delta.where(delta > 0, 0)`: positive deltas, else `0` (the undefined
first delta compares false against `0` and is replaced by `0`). -/
def gain (xs : List ℚ) : List ℚ :=
  (diffs xs).map fun d =>
    match d with
    | some v => if 0 < v then v else 0
    | none => 0

/-- `-delta.where(delta < 0, 0)`: magnitudes of negative deltas, else `0`. -/
def loss (xs : List ℚ) : List ℚ :=
  (diffs xs).map fun d =>
    match d with
    | some v => if v < 0 then -v else 0
    | none => 0

/-- `rolling(window=w).mean()`: at index `i`, the mean of the `w` entries
ending at `i`, undefined while fewer than `w` entries are available. -/
def rollingMean (w : ℕ) (xs : List ℚ) : List (Option ℚ) :=
  (List.range xs.length).map fun i =>
    if w ≤ i + 1 then some (((xs.drop (i + 1 - w)).take w).sum / w) else none

/-- `calculate_rsi`: `rs = avg_gain / avg_loss`, `rsi = 100 - 100/(1+rs)`.
When `avg_loss = 0` the float quotient is `+inf` (if `avg_gain > 0`),
collapsing the formula to exactly `100`, or NaN (if `avg_gain = 0`),
leaving the entry undefined. -/
def calculate_rsi (xs : List ℚ) (period : ℕ) : List (Option ℚ) :=
  List.zipWith
    (fun og ol =>
      match og, ol with
      | some g, some l =>
          if l = 0 then (if g = 0 then none else some 100)
          else some (100 - 100 / (1 + g / l))
      | _, _ => none)
    (rollingMean period (gain xs)) (rollingMean period (loss xs))

/-- `hist_short['RSI'].dropna()`. -/
def rsi_series (xs : List ℚ) : List ℚ := (calculate_rsi xs 14).filterMap id

/-- `rsi_val`: last defined RSI value, if any. -/
def rsi_val (xs : List ℚ) : Option ℚ := (rsi_series xs).getLast?

/-- `rsi_pass = (rsi_val is not None) and (30 < rsi_val < 70)`. -/
def rsi_pass (xs : List ℚ) : Bool :=
  match rsi_val xs with
  | some v => decide (30 < v) && decide (v < 70)
  | none => false

/-- The recursion of `ewm(span, adjust=False)` after the seed. -/
def emaRun (a : ℚ) (prev : ℚ) : List ℚ → List ℚ
  | [] => []
  | x :: t =>
      let y := (1 - a) * prev + a * x
      y :: emaRun a y t

/-- `Series.ewm(span=s, adjust=False).mean()`: recursive EMA with smoothing
`2/(span+1)`, seeded by the first sample; defined at every index. -/
def ewm (span : ℚ) (xs : List ℚ) : List ℚ :=
  match xs with
  | [] => []
  | x :: t => x :: emaRun (2 / (span + 1)) x t

/-- `macd_line = ewm(12) - ewm(26)` on the short-window closes. -/
def macd_line (xs : List ℚ) : List ℚ :=
  List.zipWith (fun a b => a - b) (ewm 12 xs) (ewm 26 xs)

/-- `signal_line = macd_line.ewm(span=9, adjust=False).mean()`. -/
def signal_line (xs : List ℚ) : List ℚ := ewm 9 (macd_line xs)

/-- `macd_pass`: both lines nonempty after `dropna()` (the EMA lines carry
no NaN, so this is nonemptiness of the series) and the latest MACD value
exceeds the latest signal value. -/
def macd_pass (xs : List ℚ) : Bool :=
  match (macd_line xs).getLast?, (signal_line xs).getLast? with
  | some m, some s => decide (s < m)
  | _, _ => false

/-- `ma_cross`: strictly more than 200 bars and latest 50-bar SMA above the
latest 200-bar SMA.  A NaN moving average compares false, and an empty
series never reaches the comparison (short-circuit), both covered by the
fallback branch. -/
def ma_cross (xs : List ℚ) : Bool :=
  decide (200 < xs.length) &&
    (match (rollingMean 50 xs).getLast?, (rollingMean 200 xs).getLast? with
     | some (some a), some (some b) => decide (b < a)
     | _, _ => false)

/-- `pe_pass = bool(pe) and pe < 25`: Python truthiness, so `None` and a
present `0` both fail the guard. -/
def pe_pass (pe : Option ℚ) : Bool :=
  match pe with
  | some x => decide (x ≠ 0) && decide (x < 25)
  | none => false

/-- `eps_pass = bool(eps) and eps > 0`. -/
def eps_pass (eps : Option ℚ) : Bool :=
  match eps with
  | some x => decide (x ≠ 0) && decide (0 < x)
  | none => false

/-- `roe_pass = bool(roe) and roe > 0.15`. -/
def roe_pass (roe : Option ℚ) : Bool :=
  match roe with
  | some x => decide (x ≠ 0) && decide ((15 : ℚ) / 100 < x)
  | none => false

/-- `rg_pass = bool(rg) and rg > 0.10`. -/
def rg_pass (rg : Option ℚ) : Bool :=
  match rg with
  | some x => decide (x ≠ 0) && decide ((10 : ℚ) / 100 < x)
  | none => false

/-- `de_pass = (de is not None) and (de < 1)`: an explicit presence check,
unlike the four truthiness-guarded fundamentals. -/
def de_pass (de : Option ℚ) : Bool :=
  match de with
  | some x => decide (x < 1)
  | none => false

/-- Displayed value of a truthiness-guarded fundamental
(`f"{v:...}" if v else 'N/A'`): a present `0` renders as `"N/A"`. -/
def truthyValue (v : Option ℚ) (scale : ℚ) : LedgerValue :=
  match v with
  | some x => if x = 0 then LedgerValue.na else LedgerValue.num (scale * x)
  | none => LedgerValue.na

/-- Line 227: the long-term recommendation string from the percentage. -/
def lt_rec (long_pct : ℤ) : String :=
  if 75 ≤ long_pct then "✅ Long-Term: Strong Buy"
  else if 50 ≤ long_pct then "➖ Long-Term: Hold"
  else "❌ Long-Term: Sell"

/-- Line 228: the short-term recommendation string from the percentage. -/
def st_rec (short_pct : ℤ) : String :=
  if 75 ≤ short_pct then "✅ Short-Term: Strong Buy"
  else if 50 ≤ short_pct then "➖ Short-Term: Hold"
  else "❌ Short-Term: Sell"

/-- The output contract of one run: the contributions table, the two raw
scores, the two truncated percentages, and the two recommendation strings. -/
structure Output where
  contributions : List MetricResult
  long_term_score : ℕ
  short_term_score : ℕ
  long_pct : ℤ
  short_pct : ℤ
  lt_rec_str : String
  st_rec_str : String
deriving DecidableEq, Repr

/-- The whole evaluation pass of the source, lines 86-231: evaluate the
eight metrics in their fixed order against `info`, the long-window closes
and the short-window closes, build the contributions ledger, accumulate
the two bucket scores, truncate the two percentages and attach the two
recommendation strings. -/
def analyze (info : Info) (hist_long hist_short : List ℚ) : Output :=
  let pe := info.trailingPE
  let pePass := pe_pass pe
  let pePoints := if pePass then metrics_weights "P/E Ratio" else 0
  let epsv := info.trailingEps
  let epsPass := eps_pass epsv
  let epsPoints := if epsPass then metrics_weights "EPS" else 0
  let roe := info.returnOnEquity
  let roePass := roe_pass roe
  let roePoints := if roePass then metrics_weights "ROE" else 0
  let rg := info.revenueGrowth
  let rgPass := rg_pass rg
  let rgPoints := if rgPass then metrics_weights "Revenue Growth" else 0
  let de := info.debtToEquity
  let dePass := de_pass de
  let dePoints := if dePass then metrics_weights "Debt-to-Equity" else 0
  let maPass := ma_cross hist_long
  let maPoints := if maPass then metrics_weights "MA Cross" else 0
  let long_term_score := pePoints + epsPoints + roePoints + rgPoints + dePoints + maPoints
  let rsiPass := rsi_pass hist_short
  let rsiPoints := if rsiPass then metrics_weights "RSI" else 0
  let rsiValue : LedgerValue :=
    match rsi_val hist_short with
    | some v => LedgerValue.num v
    | none => LedgerValue.na
  let macdPass := macd_pass hist_short
  let macdPoints := if macdPass then metrics_weights "MACD" else 0
  let short_term_score := rsiPoints + macdPoints
  let deValue : LedgerValue :=
    match de with
    | some x => LedgerValue.num x
    | none => LedgerValue.na
  let contributions : List MetricResult :=
    [⟨"P/E Ratio", truthyValue pe 1, "<25", pePoints, "Fundamental"⟩,
     ⟨"EPS", truthyValue epsv 1, ">0", epsPoints, "Fundamental"⟩,
     ⟨"ROE (%)", truthyValue roe 100, ">15%", roePoints, "Fundamental"⟩,
     ⟨"Revenue Growth (%)", truthyValue rg 100, ">10%", rgPoints, "Fundamental"⟩,
     ⟨"Debt-to-Equity", deValue, "<1", dePoints, "Fundamental"⟩,
     ⟨"Golden Cross", if maPass then LedgerValue.yes else LedgerValue.no, "Yes",
       maPoints, "Price (3y)"⟩,
     ⟨"RSI", rsiValue, "30-70", rsiPoints, "Price (3mo)"⟩,
     ⟨"MACD", if macdPass then LedgerValue.bullish else LedgerValue.bearish, "Bullish",
       macdPoints, "Price (3mo)"⟩]
  let long_pct := pyInt (((long_term_score : ℚ) / (max_long : ℚ)) * 100)
  let short_pct := pyInt (((short_term_score : ℚ) / (max_short : ℚ)) * 100)
  ⟨contributions, long_term_score, short_term_score, long_pct, short_pct,
    lt_rec long_pct, st_rec short_pct⟩

/-- Sum of the points awarded to the six long-term ledger rows. -/
def long_ledger_points (o : Output) : ℕ :=
  ((o.contributions.take 6).map (fun r => r.contribution)).sum

/-- Sum of the points awarded to the two short-term ledger rows. -/
def short_ledger_points (o : Output) : ℕ :=
  ((o.contributions.drop 6).map (fun r => r.contribution)).sum

/-! ## Arithmetic helper lemmas -/

theorem mw_pe : metrics_weights "P/E Ratio" = 15 := rfl

theorem mw_eps : metrics_weights "EPS" = 10 := rfl

theorem mw_roe : metrics_weights "ROE" = 10 := rfl

theorem mw_rg : metrics_weights "Revenue Growth" = 10 := rfl

theorem mw_de : metrics_weights "Debt-to-Equity" = 10 := rfl

theorem mw_ma : metrics_weights "MA Cross" = 15 := rfl

theorem mw_rsi : metrics_weights "RSI" = 15 := rfl

theorem mw_macd : metrics_weights "MACD" = 15 := rfl

theorem max_long_eq : max_long = 70 := rfl

theorem max_short_eq : max_short = 30 := rfl

theorem pyInt_of_nonneg (q : ℚ) (h : 0 ≤ q) : pyInt q = ⌊q⌋ := if_pos h

/-- Truncating `100 * S / D` for a score `S` within its maximum `D`:
the truncation is a floor, and the result lies in `[0, 100]`. -/
theorem pct_spec (S : ℕ) (D : ℚ) (hD : 0 < D) (hS : (S : ℚ) ≤ D) :
    pyInt ((S : ℚ) / D * 100) = ⌊(100 * (S : ℚ)) / D⌋ ∧
    0 ≤ ⌊(100 * (S : ℚ)) / D⌋ ∧ ⌊(100 * (S : ℚ)) / D⌋ ≤ 100 := by
  have h1 : (S : ℚ) / D * 100 = (100 * (S : ℚ)) / D := by ring
  have h2 : (0 : ℚ) ≤ (100 * (S : ℚ)) / D := by positivity
  refine ⟨by rw [h1, pyInt_of_nonneg _ h2], Int.floor_nonneg.mpr h2, ?_⟩
  have hle : (100 * (S : ℚ)) / D ≤ 100 := by
    rw [div_le_iff₀ hD]
    nlinarith
  calc ⌊(100 * (S : ℚ)) / D⌋ ≤ ⌊(100 : ℚ)⌋ := Int.floor_le_floor hle
    _ = 100 := by norm_num

/-! ## C1: percentage formula and range -/

/-- C1.  For every run, `long_pct` is the floor of `100` times the sum of
the points of the six long-term ledger rows over `70`, `short_pct` is the
floor of `100` times the sum of the points of the two short-term ledger
rows over `30` (truncated, not rounded), and both lie in `[0, 100]`. -/
theorem c1_percentages (info : Info) (hl hs : List ℚ) :
    (analyze info hl hs).long_pct
        = ⌊(100 * (long_ledger_points (analyze info hl hs) : ℚ)) / 70⌋ ∧
    0 ≤ (analyze info hl hs).long_pct ∧ (analyze info hl hs).long_pct ≤ 100 ∧
    (analyze info hl hs).short_pct
        = ⌊(100 * (short_ledger_points (analyze info hl hs) : ℚ)) / 30⌋ ∧
    0 ≤ (analyze info hl hs).short_pct ∧ (analyze info hl hs).short_pct ≤ 100 := by
  have hsum_long : long_ledger_points (analyze info hl hs)
      = (analyze info hl hs).long_term_score := by
    simp [analyze, long_ledger_points]
    omega
  have hsum_short : short_ledger_points (analyze info hl hs)
      = (analyze info hl hs).short_term_score := by
    simp [analyze, short_ledger_points]
  have hle_long : ((analyze info hl hs).long_term_score : ℚ) ≤ 70 := by
    have : (analyze info hl hs).long_term_score ≤ 70 := by
      simp only [analyze, mw_pe, mw_eps, mw_roe, mw_rg, mw_de, mw_ma]
      split_ifs <;> omega
    exact_mod_cast this
  have hle_short : ((analyze info hl hs).short_term_score : ℚ) ≤ 30 := by
    have : (analyze info hl hs).short_term_score ≤ 30 := by
      simp only [analyze, mw_rsi, mw_macd]
      split_ifs <;> omega
    exact_mod_cast this
  have hpct_long : (analyze info hl hs).long_pct
      = pyInt (((analyze info hl hs).long_term_score : ℚ) / 70 * 100) := by
    simp [analyze, max_long_eq]
  have hpct_short : (analyze info hl hs).short_pct
      = pyInt (((analyze info hl hs).short_term_score : ℚ) / 30 * 100) := by
    simp [analyze, max_short_eq]
  obtain ⟨hL1, hL2, hL3⟩ :=
    pct_spec (analyze info hl hs).long_term_score 70 (by norm_num) hle_long
  obtain ⟨hS1, hS2, hS3⟩ :=
    pct_spec (analyze info hl hs).short_term_score 30 (by norm_num) hle_short
  refine ⟨?_, ?_, ?_, ?_, ?_, ?_⟩
  · rw [hsum_long, hpct_long, hL1]
  · rw [hpct_long, hL1]
    exact hL2
  · rw [hpct_long, hL1]
    exact hL3
  · rw [hsum_short, hpct_short, hS1]
  · rw [hpct_short, hS1]
    exact hS2
  · rw [hpct_short, hS1]
    exact hS3

/-! ## C2: truthiness treats a present zero as absent (code bug) -/

/-- C2 fails on the code.  `trailingPE` present with value exactly `0` is a
present value that satisfies `0 < 25`, so the claim requires the full 15
points and a displayed value other than `"N/A"`; the source guards the
metric with Python truthiness (`bool(pe)`), so the run displays `"N/A"`
and awards `0` points. -/
theorem c2_truthiness_zero_pe :
    (analyze ⟨some 0, none, none, none, none⟩ [] []).contributions[0]?
      = some ⟨"P/E Ratio", LedgerValue.na, "<25", 0, "Fundamental"⟩ ∧
    pe_pass (some 0) = false ∧ de_pass (some 0) = true := by
  refine ⟨?_, by simp [pe_pass], by simp [de_pass]⟩
  simp [analyze, pe_pass, truthyValue]

/-! ## C3: label boundaries -/

/-- C3.  For each bucket independently the label is "Strong Buy" exactly
when the percentage is at least 75, "Hold" exactly between 50 and 74, and
"Sell" exactly below 50; the output strings are wired to these maps. -/
theorem c3_label_boundaries (p : ℤ) :
    (lt_rec p = "✅ Long-Term: Strong Buy" ↔ 75 ≤ p) ∧
    (lt_rec p = "➖ Long-Term: Hold" ↔ 50 ≤ p ∧ p ≤ 74) ∧
    (lt_rec p = "❌ Long-Term: Sell" ↔ p < 50) ∧
    (st_rec p = "✅ Short-Term: Strong Buy" ↔ 75 ≤ p) ∧
    (st_rec p = "➖ Short-Term: Hold" ↔ 50 ≤ p ∧ p ≤ 74) ∧
    (st_rec p = "❌ Short-Term: Sell" ↔ p < 50) ∧
    (∀ (info : Info) (hl hs : List ℚ),
      (analyze info hl hs).lt_rec_str = lt_rec (analyze info hl hs).long_pct ∧
      (analyze info hl hs).st_rec_str = st_rec (analyze info hl hs).short_pct) := by
  refine ⟨?_, ?_, ?_, ?_, ?_, ?_, fun info hl hs => ⟨rfl, rfl⟩⟩ <;>
    · simp only [lt_rec, st_rec]
      split_ifs <;> simp_all <;> omega

/-! ## C6: debt-to-equity of exactly zero passes -/

/-- C6.  A present `debtToEquity` of exactly `0` is treated as present,
passes the `< 1` test, and the ledger row carries the displayed value `0`
(not `"N/A"`) with the full 10 points. -/
theorem c6_de_zero (pe eps roe rg : Option ℚ) (hl hs : List ℚ) :
    de_pass (some 0) = true ∧
    (analyze ⟨pe, eps, roe, rg, some 0⟩ hl hs).contributions[4]?
      = some ⟨"Debt-to-Equity", LedgerValue.num 0, "<1", 10, "Fundamental"⟩ := by
  refine ⟨by simp [de_pass], ?_⟩
  simp [analyze, de_pass, mw_de]

/-! ## C10: the two buckets are computed independently -/

/-- C10.  The short-term percentage and label depend only on the short
window series (unchanged under any change of fundamentals or long series),
and the long-term percentage and label depend only on the fundamentals and
the long window series (unchanged under any change of the short series). -/
theorem c10_bucket_independence (info info' : Info) (hl hl' hs hs' : List ℚ) :
    (analyze info hl hs).short_pct = (analyze info' hl' hs).short_pct ∧
    (analyze info hl hs).st_rec_str = (analyze info' hl' hs).st_rec_str ∧
    (analyze info hl hs).long_pct = (analyze info hl hs').long_pct ∧
    (analyze info hl hs).lt_rec_str = (analyze info hl hs').lt_rec_str :=
  ⟨rfl, rfl, rfl, rfl⟩

/-! ## Length and indexing lemmas for the indicator library -/

@[simp]
theorem diffs_length (xs : List ℚ) : (diffs xs).length = xs.length := by
  cases xs with
  | nil => rfl
  | cons x t => simp [diffs]

@[simp]
theorem gain_length (xs : List ℚ) : (gain xs).length = xs.length := by
  simp [gain]

@[simp]
theorem loss_length (xs : List ℚ) : (loss xs).length = xs.length := by
  simp [loss]

@[simp]
theorem rollingMean_length (w : ℕ) (xs : List ℚ) :
    (rollingMean w xs).length = xs.length := by
  simp [rollingMean]

@[simp]
theorem calculate_rsi_length (xs : List ℚ) (p : ℕ) :
    (calculate_rsi xs p).length = xs.length := by
  simp [calculate_rsi]

@[simp]
theorem emaRun_length (a : ℚ) (prev : ℚ) (xs : List ℚ) :
    (emaRun a prev xs).length = xs.length := by
  induction xs generalizing prev with
  | nil => rfl
  | cons x t ih => simp [emaRun, ih]

@[simp]
theorem ewm_length (span : ℚ) (xs : List ℚ) : (ewm span xs).length = xs.length := by
  cases xs with
  | nil => rfl
  | cons x t => simp [ewm]

@[simp]
theorem macd_line_length (xs : List ℚ) : (macd_line xs).length = xs.length := by
  simp [macd_line]

@[simp]
theorem signal_line_length (xs : List ℚ) : (signal_line xs).length = xs.length := by
  simp [signal_line]

theorem rollingMean_getElem? (w : ℕ) (xs : List ℚ) (i : ℕ) (h : i < xs.length) :
    (rollingMean w xs)[i]?
      = some (if w ≤ i + 1 then some (((xs.drop (i + 1 - w)).take w).sum / w) else none) := by
  simp [rollingMean, List.getElem?_range h]

theorem getLast?_filterMap_id {α : Type} (l : List (Option α)) (v : α)
    (h : l.getLast? = some (some v)) : (l.filterMap id).getLast? = some v := by
  induction l using List.reverseRecOn with
  | nil => simp at h
  | append_singleton t a _ =>
      rw [List.getLast?_concat] at h
      obtain rfl : a = some v := by simpa using h
      rw [List.filterMap_append]
      simp

/-! ## C4: zero average loss forces RSI = 100, which fails the band -/

/-- C4.  When the trailing window of the RSI has average loss `0` and
average gain positive, the division-by-zero edge produces exactly `100`
(not NaN and no crash: the value is defined), the `30 < rsi < 70` test
fails, and the RSI ledger row carries `0` points. -/
theorem c4_rsi_zero_avg_loss (xs : List ℚ) (g : ℚ)
    (hg : (rollingMean 14 (gain xs)).getLast? = some (some g))
    (hgpos : 0 < g)
    (hl0 : (rollingMean 14 (loss xs)).getLast? = some (some 0)) :
    rsi_val xs = some 100 ∧ rsi_pass xs = false ∧
    ∀ (info : Info) (hlong : List ℚ),
      ((analyze info hlong xs).contributions[6]?).map (fun r => r.contribution)
        = some 0 := by
  have hg' : (rollingMean 14 (gain xs))[xs.length - 1]? = some (some g) := by
    rw [List.getLast?_eq_getElem?, rollingMean_length, gain_length] at hg
    exact hg
  have hl' : (rollingMean 14 (loss xs))[xs.length - 1]? = some (some 0) := by
    rw [List.getLast?_eq_getElem?, rollingMean_length, loss_length] at hl0
    exact hl0
  have hrsi : (calculate_rsi xs 14)[xs.length - 1]? = some (some 100) := by
    rw [calculate_rsi, List.getElem?_zipWith, hg', hl']
    simp [hgpos.ne']
  have hval : rsi_val xs = some 100 := by
    rw [rsi_val, rsi_series]
    refine getLast?_filterMap_id _ _ ?_
    rw [List.getLast?_eq_getElem?, calculate_rsi_length]
    exact hrsi
  have hpass : rsi_pass xs = false := by
    rw [rsi_pass, hval]
    norm_num
  refine ⟨hval, hpass, fun info hlong => ?_⟩
  simp [analyze, hpass]

/-- A strictly rising 15-bar price series, `0, 1, ..., 14`. -/
def lst15 : List ℚ := [0, 1, 2, 3, 4, 5, 6, 7, 8, 9, 10, 11, 12, 13, 14]

/-- Witness for C4: the strictly rising 15-bar series `0, 1, ..., 14` has
trailing average gain `1 > 0` and trailing average loss `0`, and the
theorem yields `rsi_val = 100` failing the band. -/
theorem c4_witness :
    (rollingMean 14 (gain lst15)).getLast? = some (some 1) ∧ (0 : ℚ) < 1 ∧
    (rollingMean 14 (loss lst15)).getLast? = some (some 0) ∧
    rsi_val lst15 = some 100 ∧ rsi_pass lst15 = false := by
  have hg : (rollingMean 14 (gain lst15)).getLast? = some (some 1) := by
    simp [lst15, rollingMean, gain, diffs, List.range_succ]
    norm_num
  have hl : (rollingMean 14 (loss lst15)).getLast? = some (some 0) := by
    simp [lst15, rollingMean, loss, diffs, List.range_succ]
    norm_num
  obtain ⟨h1, h2, _⟩ := c4_rsi_zero_avg_loss lst15 1 hg (by norm_num) hl
  exact ⟨hg, by norm_num, hl, h1, h2⟩

/-! ## C5: the golden-cross bar requirement is strictly greater than 200 -/

/-- C5.  A long series of exactly 200 bars yields `ma_cross = false` and a
`"No"` ledger row with 0 points regardless of the SMA values, and in
general the metric passes exactly when the series has strictly more than
200 bars and the latest 50-bar SMA exceeds the latest 200-bar SMA. -/
theorem c5_golden_cross_boundary (xs : List ℚ) (h : xs.length = 200) :
    ma_cross xs = false ∧
    (∀ (info : Info) (hs : List ℚ),
      (analyze info xs hs).contributions[5]?
        = some ⟨"Golden Cross", LedgerValue.no, "Yes", 0, "Price (3y)"⟩) ∧
    ∀ ys : List ℚ, (ma_cross ys = true ↔ 200 < ys.length ∧
      ∃ a b, (rollingMean 50 ys).getLast? = some (some a) ∧
        (rollingMean 200 ys).getLast? = some (some b) ∧ b < a) := by
  have hfalse : ma_cross xs = false := by
    rw [ma_cross, h]
    simp
  refine ⟨hfalse, fun info hs => ?_, fun ys => ?_⟩
  · simp [analyze, hfalse]
  · rcases h50 : (rollingMean 50 ys).getLast? with _ | (_ | a) <;>
      rcases h200 : (rollingMean 200 ys).getLast? with _ | (_ | b) <;>
        simp [ma_cross, h50, h200]

/-- Witness for C5: a constant series of exactly 200 bars does not pass
the MA-cross metric. -/
theorem c5_witness :
    (List.replicate 200 (1 : ℚ)).length = 200 ∧
    ma_cross (List.replicate 200 (1 : ℚ)) = false :=
  ⟨List.length_replicate 200 1,
    (c5_golden_cross_boundary (List.replicate 200 (1 : ℚ)) (List.length_replicate 200 1)).1⟩

/-! ## C7: which RSI entries are undefined -/

/-- C7 fails on the code as stated: on the strictly rising 15-bar series
the RSI entry at index 13 — one of the leading `period = 14` positions the
claim says are all undefined — is defined and equals `100` (pandas
`rolling(window=p).mean()` already has a value at index `p - 1`). -/
theorem c7_counterexample :
    lst15.length = 15 ∧ 13 < 14 ∧ (calculate_rsi lst15 14)[13]? = some (some 100) := by
  refine ⟨by simp [lst15], by norm_num, ?_⟩
  simp [lst15, calculate_rsi, rollingMean, gain, loss, diffs, List.range_succ]
  norm_num

/-- C7, amended.  `calculate_rsi` returns a sequence of the same length as
the input in which the leading `period - 1` entries are undefined (no
value, not zero), and an entry at position `i ≥ period - 1` is undefined
exactly when both the trailing average gain and the trailing average loss
at `i` are zero (the `0/0` NaN case); otherwise it is defined. -/
theorem c7_rsi_definedness (xs : List ℚ) (p : ℕ) :
    (calculate_rsi xs p).length = xs.length ∧
    (∀ i, i < xs.length → i + 1 < p → (calculate_rsi xs p)[i]? = some none) ∧
    (∀ i, i < xs.length → p ≤ i + 1 →
      ((calculate_rsi xs p)[i]? = some none ↔
        (rollingMean p (gain xs))[i]? = some (some 0) ∧
        (rollingMean p (loss xs))[i]? = some (some 0))) := by
  refine ⟨by simp, ?_, ?_⟩
  · intro i hi hip
    rw [calculate_rsi, List.getElem?_zipWith,
      rollingMean_getElem? p (gain xs) i (by simpa using hi),
      rollingMean_getElem? p (loss xs) i (by simpa using hi)]
    have hnot : ¬ p ≤ i + 1 := by omega
    simp [hnot]
  · intro i hi hpi
    rw [calculate_rsi, List.getElem?_zipWith,
      rollingMean_getElem? p (gain xs) i (by simpa using hi),
      rollingMean_getElem? p (loss xs) i (by simpa using hi),
      if_pos hpi, if_pos hpi]
    generalize (((gain xs).drop (i + 1 - p)).take p).sum / (p : ℚ) = G
    generalize (((loss xs).drop (i + 1 - p)).take p).sum / (p : ℚ) = L
    by_cases hL : L = 0 <;> by_cases hG : G = 0 <;> simp [hL, hG]

/-! ## C8: MACD with fewer than 26 bars -/

/-- C8 fails on the code as stated: a two-bar rising series (fewer than the
26 bars the claim says are required) makes the MACD metric pass with its
full 15 points, because `ewm(adjust=False)` is defined from the first bar
and enforces no minimum history. -/
theorem c8_counterexample :
    ([1, 2] : List ℚ).length < 26 ∧ macd_pass [1, 2] = true ∧
    (analyze ⟨none, none, none, none, none⟩ [] [1, 2]).contributions[7]?
      = some ⟨"MACD", LedgerValue.bullish, "Bullish", 15, "Price (3mo)"⟩ := by
  refine ⟨by norm_num, ?_, ?_⟩
  · simp [macd_pass, macd_line, signal_line, ewm, emaRun]
    norm_num
  · simp [analyze, macd_pass, macd_line, signal_line, ewm, emaRun, mw_macd]
    norm_num

/-- C8, amended.  For a short series with fewer than 26 bars the MACD
computation neither crashes nor produces an undefined value: the MACD and
signal lines are defined at every bar, the metric fails only when the
series is empty and otherwise passes exactly when the latest MACD value
exceeds the latest signal value, and the ledger row always carries
`15 * macd_pass` points into the aggregate. -/
theorem c8_macd_short_series (xs : List ℚ) (h26 : xs.length < 26) :
    (macd_line xs).length = xs.length ∧
    (signal_line xs).length = xs.length ∧
    (macd_pass xs = true ↔ ∃ m s, (macd_line xs).getLast? = some m ∧
      (signal_line xs).getLast? = some s ∧ s < m) ∧
    ∀ (info : Info) (hl : List ℚ),
      ((analyze info hl xs).contributions[7]?).map (fun r => r.contribution)
        = some (if macd_pass xs then 15 else 0) := by
  refine ⟨by simp, by simp, ?_, fun info hl => ?_⟩
  · rcases hm : (macd_line xs).getLast? with _ | m <;>
      rcases hsig : (signal_line xs).getLast? with _ | s <;>
        simp [macd_pass, hm, hsig]
  · simp [analyze, mw_macd]

/-- Witness for C8: the two-bar series satisfies the length bound and the
amended theorem applies to it. -/
theorem c8_witness :
    ([1, 2] : List ℚ).length < 26 ∧ (macd_line ([1, 2] : List ℚ)).length = 2 :=
  ⟨by norm_num, by
    have h := (c8_macd_short_series ([1, 2] : List ℚ) (by norm_num)).1
    simpa using h⟩

/-! ## C9: malformed input does not fail fast -/

/-- C9 fails on the code as stated: on an empty (malformed) price series
the evaluation pass completes silently and produces scores and labels —
there is no validation and no error path in the scoring engine. -/
theorem c9_counterexample :
    (analyze ⟨none, none, none, none, none⟩ [] []).contributions.length = 8 ∧
    (analyze ⟨none, none, none, none, none⟩ [] []).long_pct = 0 ∧
    (analyze ⟨none, none, none, none, none⟩ [] []).short_pct = 0 ∧
    (analyze ⟨none, none, none, none, none⟩ [] []).lt_rec_str = "❌ Long-Term: Sell" ∧
    (analyze ⟨none, none, none, none, none⟩ [] []).st_rec_str = "❌ Short-Term: Sell" := by
  refine ⟨by simp [analyze], ?_, ?_, ?_, ?_⟩ <;>
    simp [analyze, pe_pass, eps_pass, roe_pass, rg_pass, de_pass, ma_cross, rollingMean,
      rsi_pass, rsi_val, rsi_series, calculate_rsi, gain, loss, diffs, macd_pass,
      macd_line, signal_line, ewm, pyInt, max_long, max_short, lt_rec, st_rec]

/-- C9, amended.  For every fundamentals snapshot, running the engine on
empty price series does not fail fast: it silently completes the linear
pass, the three technical metrics degrade to fail (`"No"`, `"N/A"`,
`Bearish`) with 0 points each, and percentage scores and labels are still
produced.  (The computation reads only the close column, so timestamp
order is never inspected and cannot trigger an error either.) -/
theorem c9_no_fail_fast (info : Info) :
    (analyze info [] []).contributions.length = 8 ∧
    (analyze info [] []).contributions[5]?
      = some ⟨"Golden Cross", LedgerValue.no, "Yes", 0, "Price (3y)"⟩ ∧
    (analyze info [] []).contributions[6]?
      = some ⟨"RSI", LedgerValue.na, "30-70", 0, "Price (3mo)"⟩ ∧
    (analyze info [] []).contributions[7]?
      = some ⟨"MACD", LedgerValue.bearish, "Bullish", 0, "Price (3mo)"⟩ ∧
    (analyze info [] []).short_pct = 0 ∧
    (analyze info [] []).st_rec_str = "❌ Short-Term: Sell" := by
  have hma : ma_cross ([] : List ℚ) = false := by simp [ma_cross]
  have hrv : rsi_val ([] : List ℚ) = none := by
    simp [rsi_val, rsi_series, calculate_rsi, rollingMean, gain, loss, diffs]
  have hrp : rsi_pass ([] : List ℚ) = false := by simp [rsi_pass, hrv]
  have hmp : macd_pass ([] : List ℚ) = false := by
    simp [macd_pass, macd_line, signal_line, ewm]
  refine ⟨by simp [analyze], ?_, ?_, ?_, ?_, ?_⟩ <;>
    simp [analyze, hma, hrv, hrp, hmp, pyInt, max_short, st_rec]
